import Mathlib

/-!
Verification of the Session & Retry Manager of `instagram-cli`.

The Lean definitions below are a shallow embedding of the Python sources
`src/instagram_cli/client.py` and `src/instagram_cli/auth.py`.  The remote
protocol client (the external `instagrapi` library) is opaque: each remote
capability is modelled as an oracle `Nat → Except RemoteErr α` giving the
outcome of the k-th invocation of that capability (0-indexed), and the
filesystem is modelled as an explicit record.  Exceptions become `Except`
values; console output becomes an explicit list of messages.
-/

namespace InstaCli

/-- Console output, from `utils.py` (`info_message` / `error_message` /
`success_message`). -/
inductive Msg
  | info (s : String)
  | err (s : String)
  | success (s : String)
deriving DecidableEq

/-- The classified exceptions of the external client library
(`instagrapi.exceptions`), as caught by the code under verification. -/
inductive RemoteErr
  | rateLimited
  | loginRequired
  | badPassword
  | twoFactorRequired
  | challengeRequired
  | other (s : String)
deriving DecidableEq

/-- A remote capability: the outcome of its k-th invocation. -/
abbrev Remote (α : Type) := Nat → Except RemoteErr α

/-- Errors escaping `InstaClient._retry_on_rate_limit`.
`rateLimitExceeded` is the `RateLimitError` re-raised after the wrapper
printed "Rate limit exceeded. Please try again later." on the last allowed
attempt; `raised e` is a non-rate-limit exception re-raised immediately by
the `except Exception` clause; `fellThrough` models the Python loop
completing without a `return` (unreachable while `max_retries = 3`). -/
inductive RetryErr
  | rateLimitExceeded
  | raised (e : RemoteErr)
  | fellThrough
deriving DecidableEq

/-- Observable result of one `_retry_on_rate_limit` run: the value or the
escaping error, the sequence of `time.sleep` delays, and how many times the
wrapped function was invoked. -/
structure RetryResult (α : Type) where
  outcome : Except RetryErr α
  sleeps : List Nat
  attempts : Nat

/-- The loop body of `InstaClient._retry_on_rate_limit` (client.py:33-50).
`fuel` is the number of loop iterations still permitted
(`max_retries - attempt`), so the source guard `attempt < max_retries - 1`
becomes `f ≠ 0` after peeling one iteration.  `delay` is `retry_delay`,
doubled after each sleep. -/
def retryGo (op : Remote α) (delay attempt fuel : Nat) : RetryResult α :=
  match fuel with
  | 0 => ⟨.error .fellThrough, [], attempt⟩
  | f + 1 =>
    match op attempt with
    | .ok a => ⟨.ok a, [], attempt + 1⟩
    | .error .rateLimited =>
      if f = 0 then
        ⟨.error .rateLimitExceeded, [], attempt + 1⟩
      else
        match retryGo op (delay * 2) (attempt + 1) f with
        | ⟨o, s, n⟩ => ⟨o, delay :: s, n⟩
    | .error e => ⟨.error (.raised e), [], attempt + 1⟩

/-- `InstaClient._retry_on_rate_limit`: `max_retries = 3`, `retry_delay = 5`. -/
def retryOnRateLimit (op : Remote α) : RetryResult α :=
  retryGo op 5 0 3

/-- Unfolding of the first loop iteration of `retryOnRateLimit`. -/
theorem retryOnRateLimit_def (op : Remote α) :
    retryOnRateLimit op =
      match op 0 with
      | .ok a => ⟨.ok a, [], 1⟩
      | .error .rateLimited =>
        (match retryGo op 10 1 2 with
         | ⟨o, s, n⟩ => ⟨o, 5 :: s, n⟩)
      | .error e => ⟨.error (.raised e), [], 1⟩ := rfl

/-- Unfolding of the second loop iteration. -/
theorem retryGo_two_def (op : Remote α) :
    retryGo op 10 1 2 =
      match op 1 with
      | .ok a => ⟨.ok a, [], 2⟩
      | .error .rateLimited =>
        (match retryGo op 20 2 1 with
         | ⟨o, s, n⟩ => ⟨o, 10 :: s, n⟩)
      | .error e => ⟨.error (.raised e), [], 2⟩ := rfl

/-- Unfolding of the third (final) loop iteration. -/
theorem retryGo_one_def (op : Remote α) :
    retryGo op 20 2 1 =
      match op 2 with
      | .ok a => ⟨.ok a, [], 3⟩
      | .error .rateLimited => ⟨.error .rateLimitExceeded, [], 3⟩
      | .error e => ⟨.error (.raised e), [], 3⟩ := rfl

/-- Shared helper: success on the very first attempt. -/
theorem retry_ok_first (op : Remote α) (a : α) (h0 : op 0 = .ok a) :
    retryOnRateLimit op = ⟨.ok a, [], 1⟩ := by
  simp [retryOnRateLimit_def, h0]

/-- Shared helper: one rate-limit failure, then success. -/
theorem retry_rl_then_ok (op : Remote α) (a : α)
    (h0 : op 0 = .error .rateLimited) (h1 : op 1 = .ok a) :
    retryOnRateLimit op = ⟨.ok a, [5], 2⟩ := by
  simp [retryOnRateLimit_def, retryGo_two_def, h0, h1]

/-- C1: with the policy `max_retries = 3`, `retry_delay = 5`, doubling after
each sleep, an operation that is rate limited on attempts 1 and 2 and
succeeds on attempt 3 makes `call` return the successful result, sleep
exactly twice with delays 5 then 10, and invoke the operation exactly
3 times. -/
theorem retry_succeeds_on_third_attempt (op : Remote α) (a : α)
    (h0 : op 0 = .error .rateLimited) (h1 : op 1 = .error .rateLimited)
    (h2 : op 2 = .ok a) :
    retryOnRateLimit op = ⟨.ok a, [5, 10], 3⟩ := by
  simp [retryOnRateLimit_def, retryGo_two_def, retryGo_one_def, h0, h1, h2]

def opC1 : Remote Nat := fun k => if k < 2 then .error .rateLimited else .ok 42

/-- Witness for C1 at a concrete operation. -/
theorem retry_succeeds_on_third_attempt_witness :
    retryOnRateLimit opC1 = ⟨.ok 42, [5, 10], 3⟩ :=
  retry_succeeds_on_third_attempt opC1 42 rfl rfl rfl

/-- C2: rate limited on all 3 allowed attempts, the wrapper fails with the
post-exhaustion rate-limit error, makes exactly 3 attempts (no 4th) and
sleeps only twice (never after the final failed attempt); and any
non-rate-limit error raised by the wrapped operation escapes on the first
attempt, with no sleep and no retry. -/
theorem retry_exhaustion_and_passthrough (op op2 : Remote α) (e : RemoteErr)
    (h0 : op 0 = .error .rateLimited) (h1 : op 1 = .error .rateLimited)
    (h2 : op 2 = .error .rateLimited)
    (he : e ≠ .rateLimited) (g0 : op2 0 = .error e) :
    retryOnRateLimit op = ⟨.error .rateLimitExceeded, [5, 10], 3⟩ ∧
    retryOnRateLimit op2 = ⟨.error (.raised e), [], 1⟩ := by
  constructor
  · simp [retryOnRateLimit_def, retryGo_two_def, retryGo_one_def, h0, h1, h2]
  · cases e <;> simp_all [retryOnRateLimit_def]

def opC2 : Remote Nat := fun _ => .error .rateLimited

def opC2' : Remote Nat := fun _ => .error .loginRequired

/-- Witness for C2 at concrete operations. -/
theorem retry_exhaustion_and_passthrough_witness :
    retryOnRateLimit opC2 = ⟨.error .rateLimitExceeded, [5, 10], 3⟩ ∧
    retryOnRateLimit opC2' = ⟨.error (.raised .loginRequired), [], 1⟩ :=
  retry_exhaustion_and_passthrough opC2 opC2' .loginRequired rfl rfl rfl
    (by decide) rfl

/-! ### Gateway account/query operations (client.py) -/

/-- The fields of the library user-info object that the gateway reads. -/
structure UserInfo where
  username : String
  full_name : String
  biography : String
  follower_count : Nat
  following_count : Nat
  media_count : Nat
  is_private : Bool
  is_verified : Bool
  external_url : Option String
  profile_pic_url : Option String
deriving DecidableEq

/-- The dictionary built by `InstaClient.get_account_stats`. -/
structure AccountStats where
  followers : Nat
  following : Nat
  posts : Nat
deriving DecidableEq

/-- Result of an operation that calls the remote capability directly
(no retry wrapper): the outcome, how many remote calls were made, and the
messages printed. -/
structure DirectOut (α : Type) where
  outcome : Except RemoteErr α
  remoteCalls : Nat
  msgs : List Msg

/-- `InstaClient.get_account_stats` (client.py:52-73): reads
`self.client.user_id` (a local session attribute) and then calls
`self.client.user_info(user_id)` directly — not through
`_retry_on_rate_limit`.  `except LoginRequired` prints the session-expired
message and re-raises; `except Exception` prints a generic message and
re-raises: every error escapes after one call. -/
def get_account_stats (userId : Nat) (user_info : Nat → Remote UserInfo) :
    DirectOut AccountStats :=
  match user_info userId 0 with
  | .ok u => ⟨.ok ⟨u.follower_count, u.following_count, u.media_count⟩, 1, []⟩
  | .error .loginRequired =>
    ⟨.error .loginRequired, 1, [.err "Session expired. Please login again."]⟩
  | .error e => ⟨.error e, 1, [.err "Failed to get account stats"]⟩

/-- The dictionary built by `InstaClient.get_current_user`. -/
structure CurrentUserDict where
  username : String
  full_name : String
  biography : String
  follower_count : Nat
  following_count : Nat
  media_count : Nat
  is_private : Bool
  is_verified : Bool
  user_id : String
deriving DecidableEq

/-- `InstaClient.get_current_user` (client.py:213-237): also calls
`self.client.user_info(user_id)` directly, with a single generic
`except Exception` that prints a message and re-raises. -/
def get_current_user (userId : Nat) (user_info : Nat → Remote UserInfo) :
    DirectOut CurrentUserDict :=
  match user_info userId 0 with
  | .ok u =>
    ⟨.ok ⟨u.username, u.full_name, u.biography, u.follower_count,
        u.following_count, u.media_count, u.is_private, u.is_verified,
        toString userId⟩, 1, []⟩
  | .error e => ⟨.error e, 1, [.err "Failed to get current user info"]⟩

/-- Result of an operation built on the retry wrapper: the outcome, the
sleeps performed, and the total number of remote attempts made. -/
structure GatewayOut (α : Type) where
  outcome : Except RetryErr α
  sleeps : List Nat
  attempts : Nat

/-- `username.lstrip(chr(64))` of client.py:87 — drop every leading `@`. -/
def stripAts (s : String) : String :=
  String.mk (s.data.dropWhile (fun c => c = '@'))

/-- `InstaClient.get_user_info` (client.py:75-106): strips leading `@`,
resolves the user id and fetches the profile, each through
`_retry_on_rate_limit`; the returned dictionary copies the ten `UserInfo`
fields unchanged.  The surrounding `except Exception` prints a message and
re-raises, so errors pass through. -/
def get_user_info (username : String)
    (user_id_from_username : String → Remote Nat)
    (user_info : Nat → Remote UserInfo) : GatewayOut UserInfo :=
  match retryOnRateLimit (user_id_from_username (stripAts username)) with
  | ⟨.ok uid, s1, n1⟩ =>
    match retryOnRateLimit (user_info uid) with
    | ⟨.ok u, s2, n2⟩ => ⟨.ok u, s1 ++ s2, n1 + n2⟩
    | ⟨.error e, s2, n2⟩ => ⟨.error e, s1 ++ s2, n1 + n2⟩
  | ⟨.error e, s1, n1⟩ => ⟨.error e, s1, n1⟩

/-- The fields of a search result that `InstaClient.search_users` copies
into its result dictionaries. -/
structure SearchUser where
  username : String
  full_name : String
  follower_count : Nat
  is_verified : Bool
  is_private : Bool
deriving DecidableEq

/-- `InstaClient.search_users` (client.py:108-135): one retry-wrapped
search call, then client-side truncation `users[:limit]`. -/
def search_users (query : String) (limit : Nat)
    (searchOp : String → Remote (List SearchUser)) :
    GatewayOut (List SearchUser) :=
  match retryOnRateLimit (searchOp query) with
  | ⟨.ok users, s, n⟩ => ⟨.ok (users.take limit), s, n⟩
  | ⟨.error e, s, n⟩ => ⟨.error e, s, n⟩

/-- The nested `user` dictionary read by `get_feed`. -/
structure RawUser where
  username : Option String
  full_name : Option String
deriving DecidableEq

/-- The `media_or_ad` dictionary fields read by `get_feed`; absent keys
are `none` (`dict.get` returns `None`). -/
structure RawPost where
  id : Option String
  user : Option RawUser
  caption : Option String
  like_count : Option Nat
  comment_count : Option Nat
  media_type : Option Nat
  taken_at : Option Nat
deriving DecidableEq

/-- One entry of `feed.get(str_feed_items, [])`: a feed item is a media
entry exactly when it has the `media_or_ad` key. -/
structure FeedItem where
  media_or_ad : Option RawPost
deriving DecidableEq

/-- The post dictionary built by `get_feed` for each media entry:
`post.get(k)` keeps `Option`, `post.get(k, 0)` defaults to 0, and the
nested user fields go through `post.get(str_user, emptyDict).get(...)`. -/
structure PostView where
  id : Option String
  username : Option String
  full_name : Option String
  caption : Option String
  like_count : Nat
  comment_count : Nat
  media_type : Option Nat
  taken_at : Option Nat
deriving DecidableEq

/-- The dictionary construction in the `get_feed` loop body
(client.py:154-165). -/
def projectPost (p : RawPost) : PostView :=
  ⟨p.id, p.user.bind (fun u => u.username), p.user.bind (fun u => u.full_name),
    p.caption, p.like_count.getD 0, p.comment_count.getD 0,
    p.media_type, p.taken_at⟩

/-- `InstaClient.get_feed` (client.py:137-170): one retry-wrapped
`get_timeline_feed` call (the oracle yields the `feed_items` list), then
the loop `for media in feed_items[:limit]: if media_or_ad in media: append`
— the page is truncated to `limit` FIRST and filtered to media entries
afterwards. -/
def get_feed (limit : Nat) (get_timeline_feed : Remote (List FeedItem)) :
    GatewayOut (List PostView) :=
  match retryOnRateLimit get_timeline_feed with
  | ⟨.ok items, s, n⟩ =>
    ⟨.ok ((items.take limit).filterMap
        (fun it => it.media_or_ad.map projectPost)), s, n⟩
  | ⟨.error e, s, n⟩ => ⟨.error e, s, n⟩

/-- Result of `InstaClient.post_photo`: the boolean the function returns
(or the escaping error), the number of invocations of the remote upload
capability, the sleeps, and the messages printed. -/
structure PostPhotoOut where
  outcome : Except RetryErr Bool
  remoteAttempts : Nat
  sleeps : List Nat
  msgs : List Msg

/-- `photo_file.suffix.lower()`: ASCII lowercase of the extension. -/
def strLower (s : String) : String :=
  String.mk (s.data.map Char.toLower)

/-- The extension whitelist of client.py:190. -/
def allowedPhotoSuffixes : List String := [".jpg", ".jpeg", ".png"]

/-- `InstaClient.post_photo` (client.py:172-211).  The local file is
characterised by its existence and its `Path.suffix`; `photo_upload`
returns the uploaded media (`some pk` — the code then prints the media id
`media.pk` inside the success message and returns `True`; a falsy result
gives `False`).  Both validation failures return `False` after an error
message, before any remote call. -/
def post_photo (fileExists : Bool) (photoSuffix : String) (_caption : String)
    (photo_upload : Remote (Option Nat)) : PostPhotoOut :=
  if !fileExists then
    ⟨.ok false, 0, [], [.err "Photo file not found"]⟩
  else if strLower photoSuffix ∉ allowedPhotoSuffixes then
    ⟨.ok false, 0, [], [.err "Photo must be JPG, JPEG, or PNG format"]⟩
  else
    match retryOnRateLimit photo_upload with
    | ⟨.ok (some pk), s, n⟩ =>
      ⟨.ok true, n, s,
        [.info "Uploading photo",
         .success ("Photo posted successfully! Media ID: " ++ toString pk)]⟩
    | ⟨.ok none, s, n⟩ =>
      ⟨.ok false, n, s, [.info "Uploading photo", .err "Failed to post photo"]⟩
    | ⟨.error e, s, n⟩ =>
      ⟨.error e, n, s, [.info "Uploading photo", .err "Failed to post photo"]⟩

/-! ### C3: `get_feed` truncation/filter order -/

/-- Shared helper: the length of a `filterMap` counts the elements on which
the function succeeds. -/
theorem length_filterMap_eq_countP (f : α → Option β) :
    ∀ l : List α, (l.filterMap f).length = l.countP (fun a => (f a).isSome)
  | [] => by simp
  | a :: t => by
    cases h : f a <;>
      simp [List.filterMap_cons, h, List.countP_cons,
        length_filterMap_eq_countP f t]

/-- Shared helper: `get_feed` under a remote page that arrives on the first
attempt. -/
theorem get_feed_ok (items : List FeedItem) (limit : Nat) :
    get_feed limit (fun _ => .ok items) =
      ⟨.ok ((items.take limit).filterMap
          (fun it => it.media_or_ad.map projectPost)), [], 1⟩ := by
  simp [get_feed, retry_ok_first (fun _ => .ok items) items rfl]

def adItem : FeedItem := ⟨none⟩

def mPost (k : Nat) : RawPost := ⟨none, none, none, some k, none, none, none⟩

def mItem (k : Nat) : FeedItem := ⟨some (mPost k)⟩

def c3Items : List FeedItem :=
  [adItem, adItem, mItem 1, mItem 2, mItem 3, mItem 4, mItem 5, mItem 6]

def c3Res : List PostView :=
  [projectPost (mPost 1), projectPost (mPost 2), projectPost (mPost 3)]

/-- C3 counterexample: a feed page of 8 items of which exactly 2 are
non-media, with the non-media entries among the first 5; `get_feed` with
`limit = 5` returns only 3 media entries, not 5 — the code truncates to
`limit` BEFORE filtering out non-media items. -/
theorem get_feed_not_five_cex :
    (get_feed 5 (fun _ => Except.ok c3Items)).outcome = Except.ok c3Res ∧
    c3Items.length = 8 ∧
    c3Items.countP (fun it => it.media_or_ad.isSome) = 6 ∧
    c3Res.length = 3 ∧ (3 : Nat) ≠ 5 := by
  refine ⟨rfl, rfl, by decide, rfl, by decide⟩

/-- C3 amended: `getFeed(limit)` truncates the fetched feed page to its
first `limit` items and only then filters to media entries, preserving the
original order; the result length is the number of media entries among the
first `limit` items (hence at most `limit`), and the 8-item example yields
exactly 5 media-only entries precisely when the 2 non-media items lie
outside the first 5. -/
theorem get_feed_amended :
    (∀ (items : List FeedItem) (limit : Nat) (r : List PostView),
      (get_feed limit (fun _ => Except.ok items)).outcome = Except.ok r →
      r = (items.take limit).filterMap (fun it => it.media_or_ad.map projectPost) ∧
      r.length = (items.take limit).countP (fun it => it.media_or_ad.isSome) ∧
      r.length ≤ limit) ∧
    (∀ a b c d e f : RawPost,
      (get_feed 5 (fun _ => Except.ok
          ([⟨some a⟩, ⟨some b⟩, ⟨some c⟩, ⟨some d⟩, ⟨some e⟩,
            ⟨none⟩, ⟨none⟩, ⟨some f⟩] : List FeedItem))).outcome =
        Except.ok [projectPost a, projectPost b, projectPost c,
          projectPost d, projectPost e]) := by
  constructor
  · intro items limit r h
    rw [get_feed_ok] at h
    simp only [Except.ok.injEq] at h
    subst h
    refine ⟨rfl, ?_, ?_⟩
    · rw [length_filterMap_eq_countP]
      apply List.countP_congr
      intro it _
      cases it.media_or_ad <;> simp
    · exact le_trans (List.length_filterMap_le _ _) (List.length_take_le _ _)
  · intro a b c d e f
    rfl

/-- Witness for C3's amended theorem at the concrete 8-item page. -/
theorem get_feed_amended_witness :
    ((get_feed 5 (fun _ => Except.ok c3Items)).outcome = Except.ok c3Res) ∧
    (c3Res = (c3Items.take 5).filterMap (fun it => it.media_or_ad.map projectPost) ∧
     c3Res.length = (c3Items.take 5).countP (fun it => it.media_or_ad.isSome) ∧
     c3Res.length ≤ 5) :=
  ⟨rfl, get_feed_amended.1 c3Items 5 c3Res rfl⟩

/-! ### C4: which operations go through the retry wrapper -/

def c4info : UserInfo := ⟨"alice", "Alice A", "", 10, 5, 3, false, false, none, none⟩

def c4ui : Nat → Remote UserInfo :=
  fun _uid k => if k = 0 then .error .rateLimited else .ok c4info

/-- C4 counterexample: a transient rate limit on the first `user_info` call
(the second call would succeed) is NOT retried by `get_account_stats` or
`get_current_user`: both make exactly one remote call and propagate the
rate-limit error on first occurrence. -/
theorem stats_not_retried_cex :
    (get_account_stats 7 c4ui).outcome = .error .rateLimited ∧
    (get_account_stats 7 c4ui).remoteCalls = 1 ∧
    (get_current_user 7 c4ui).outcome = .error .rateLimited ∧
    (get_current_user 7 c4ui).remoteCalls = 1 ∧
    c4ui 7 1 = .ok c4info :=
  ⟨rfl, rfl, rfl, rfl, rfl⟩

theorem jpg_allowed : strLower ".jpg" ∈ allowedPhotoSuffixes := by decide

/-- C4 amended: only `get_user_info`, `search_users`, `get_feed` and
`post_photo` route their remote calls through the exponential-backoff
retry wrapper (a first-attempt rate limit is absorbed after a 5-unit
sleep); `get_account_stats` and the current-user profile fetch call the
remote capability directly, so a transient `RateLimited` there propagates
immediately after a single call. -/
theorem retry_wrapping_amended :
    (∀ (uid : Nat) (ui : Nat → Remote UserInfo),
      ui uid 0 = .error .rateLimited →
      (get_account_stats uid ui).outcome = .error .rateLimited ∧
      (get_account_stats uid ui).remoteCalls = 1) ∧
    (∀ (uid : Nat) (ui : Nat → Remote UserInfo),
      ui uid 0 = .error .rateLimited →
      (get_current_user uid ui).outcome = .error .rateLimited ∧
      (get_current_user uid ui).remoteCalls = 1) ∧
    (∀ (username : String) (uidF : String → Remote Nat)
        (ui : Nat → Remote UserInfo) (uid : Nat) (u : UserInfo),
      uidF (stripAts username) 0 = .error .rateLimited →
      uidF (stripAts username) 1 = .ok uid →
      ui uid 0 = .ok u →
      (get_user_info username uidF ui).outcome = .ok u ∧
      (get_user_info username uidF ui).sleeps = [5]) ∧
    (∀ (q : String) (limit : Nat) (so : String → Remote (List SearchUser))
        (users : List SearchUser),
      so q 0 = .error .rateLimited → so q 1 = .ok users →
      (search_users q limit so).outcome = .ok (users.take limit) ∧
      (search_users q limit so).sleeps = [5]) ∧
    (∀ (limit : Nat) (tf : Remote (List FeedItem)) (items : List FeedItem),
      tf 0 = .error .rateLimited → tf 1 = .ok items →
      (get_feed limit tf).outcome =
        .ok ((items.take limit).filterMap
          (fun it => it.media_or_ad.map projectPost)) ∧
      (get_feed limit tf).sleeps = [5]) ∧
    (∀ (cap : String) (up : Remote (Option Nat)) (pk : Nat),
      up 0 = .error .rateLimited → up 1 = .ok (some pk) →
      (post_photo true ".jpg" cap up).outcome = .ok true ∧
      (post_photo true ".jpg" cap up).remoteAttempts = 2 ∧
      (post_photo true ".jpg" cap up).sleeps = [5]) := by
  refine ⟨?_, ?_, ?_, ?_, ?_, ?_⟩
  · intro uid ui h
    simp [get_account_stats, h]
  · intro uid ui h
    simp [get_current_user, h]
  · intro username uidF ui uid u h0 h1 h2
    have r1 := retry_rl_then_ok (uidF (stripAts username)) uid h0 h1
    have r2 := retry_ok_first (ui uid) u h2
    simp [get_user_info, r1, r2]
  · intro q limit so users h0 h1
    have r := retry_rl_then_ok (so q) users h0 h1
    simp [search_users, r]
  · intro limit tf items h0 h1
    have r := retry_rl_then_ok tf items h0 h1
    simp [get_feed, r]
  · intro cap up pk h0 h1
    have r := retry_rl_then_ok up (some pk) h0 h1
    simp [post_photo, r, jpg_allowed]

def c4uidF : String → Remote Nat :=
  fun _s k => if k = 0 then .error .rateLimited else .ok 9

def c4uiOk : Nat → Remote UserInfo := fun _ _ => .ok c4info

def c4searchHit : SearchUser := ⟨"bob", "Bob B", 1, false, false⟩

def c4so : String → Remote (List SearchUser) :=
  fun _q k => if k = 0 then .error .rateLimited else .ok [c4searchHit]

def c4feed : List FeedItem := [⟨some ⟨none, none, none, some 9, none, none, none⟩⟩]

def c4tf : Remote (List FeedItem) :=
  fun k => if k = 0 then .error .rateLimited else .ok c4feed

def c4up : Remote (Option Nat) :=
  fun k => if k = 0 then .error .rateLimited else .ok (some 33)

/-- Witness for C4's amended theorem at concrete oracles. -/
theorem retry_wrapping_amended_witness :
    ((get_account_stats 7 c4ui).outcome = .error .rateLimited ∧
     (get_account_stats 7 c4ui).remoteCalls = 1) ∧
    ((get_current_user 7 c4ui).outcome = .error .rateLimited ∧
     (get_current_user 7 c4ui).remoteCalls = 1) ∧
    ((get_user_info "@alice" c4uidF c4uiOk).outcome = .ok c4info ∧
     (get_user_info "@alice" c4uidF c4uiOk).sleeps = [5]) ∧
    ((search_users "bob" 10 c4so).outcome = .ok ([c4searchHit].take 10) ∧
     (search_users "bob" 10 c4so).sleeps = [5]) ∧
    ((get_feed 20 c4tf).outcome =
       .ok ((c4feed.take 20).filterMap
         (fun it => it.media_or_ad.map projectPost)) ∧
     (get_feed 20 c4tf).sleeps = [5]) ∧
    ((post_photo true ".jpg" "hi" c4up).outcome = .ok true ∧
     (post_photo true ".jpg" "hi" c4up).remoteAttempts = 2 ∧
     (post_photo true ".jpg" "hi" c4up).sleeps = [5]) :=
  ⟨retry_wrapping_amended.1 7 c4ui rfl,
   retry_wrapping_amended.2.1 7 c4ui rfl,
   retry_wrapping_amended.2.2.1 "@alice" c4uidF c4uiOk 9 c4info rfl rfl rfl,
   retry_wrapping_amended.2.2.2.1 "bob" 10 c4so [c4searchHit] rfl rfl,
   retry_wrapping_amended.2.2.2.2.1 20 c4tf c4feed rfl rfl,
   retry_wrapping_amended.2.2.2.2.2 "hi" c4up 33 rfl rfl⟩

/-! ### Session store and authenticator (auth.py) -/

/-- The opaque serialized session blob.  Per the external-interface
contract, the file stores whatever `dump_settings` produces and
`load_settings` restores it verbatim, so the blob is modelled as an opaque
string.  -/
abbrev Payload := String

/-- Filesystem operations performed on the session file. -/
inductive FsOp
  | mkdirp
  | write (p : Payload)
  | chmod600
  | unlink
deriving DecidableEq

/-- The filesystem state the session store touches: the session file
(payload and permission mode) and its parent directory. -/
structure FsState where
  file : Option (Payload × Nat)
  dirExists : Bool
deriving DecidableEq

/-- An injected filesystem failure (disk full, permission denied) at one of
the three steps of `_save_session`. -/
inductive FsFault
  | mkdirFail
  | writeFail
  | chmodFail
deriving DecidableEq

def faultStr : FsFault → String
  | .mkdirFail => "mkdir failed"
  | .writeFail => "disk full"
  | .chmodFail => "chmod failed"

/-- Result of `SessionManager._save_session`: the filesystem afterwards,
the operations attempted, the messages printed, and the exception escaping
the call — always `none`, because the `except Exception` clause prints an
error message and does NOT re-raise (auth.py:108-109). -/
structure SaveOut where
  fs : FsState
  ops : List FsOp
  msgs : List Msg
  propagated : Option FsFault

/-- `SessionManager._save_session` (auth.py:95-109): ensure the parent
directory exists (`mkdir(parents=True, exist_ok=True)`), `dump_settings`
(writes the payload; overwriting keeps the file mode, a fresh create uses
the default mode 420 = 0o644), then `chmod(0o600)`.  Each step can hit the
injected fault; whatever fails is caught by `except Exception`, reported
via `error_message`, and swallowed. -/
def save_session (fs : FsState) (fault : Option FsFault) (p : Payload) :
    SaveOut :=
  match fault with
  | some .mkdirFail =>
    ⟨fs, [.mkdirp],
      [.err ("Failed to save session: " ++ faultStr .mkdirFail)], none⟩
  | some .writeFail =>
    ⟨{ fs with dirExists := true }, [.mkdirp, .write p],
      [.err ("Failed to save session: " ++ faultStr .writeFail)], none⟩
  | some .chmodFail =>
    ⟨⟨some (p, ((fs.file.map Prod.snd).getD 420)), true⟩,
      [.mkdirp, .write p, .chmod600],
      [.err ("Failed to save session: " ++ faultStr .chmodFail)], none⟩
  | none =>
    ⟨⟨some (p, 0o600), true⟩, [.mkdirp, .write p, .chmod600],
      [.info "Session saved"], none⟩

/-- `client.load_settings(self.session_file)`: reads the stored blob back
verbatim; `none` when the file is absent. -/
def load_session (fs : FsState) : Option Payload :=
  fs.file.map Prod.fst

/-- `SessionManager.is_authenticated` (auth.py:29-41): `false` if the
session file is absent; otherwise load the session and probe
`client.account_info()`, with every exception mapped to `false`. -/
def is_authenticated (fileExists : Bool) (probe : Except RemoteErr Unit) :
    Bool :=
  fileExists &&
    (match probe with
     | .ok _ => true
     | .error _ => false)

/-- Failures of `SessionManager.get_client`.  At the Python level both
`notAuthenticated` and `sessionExpired` are `LoginRequired` exceptions;
they are distinct observable failure modes: `notAuthenticated` is
`LoginRequired` raised with the message "Not authenticated. Please login
first.", while `sessionExpired` is the liveness-check `LoginRequired`
re-raised after `error_message` printed "Session expired. Please login
again.".  `raised e` is any other exception of the liveness check, which
the `except LoginRequired` clause does not catch. -/
inductive AuthFail
  | notAuthenticated
  | sessionExpired
  | raised (e : RemoteErr)
deriving DecidableEq

/-- Result of `get_client`: the handle or the failure, the number of
`client.login` calls performed (the function never re-logins), and the
messages printed. -/
structure GetClientOut where
  outcome : Except AuthFail Unit
  loginCalls : Nat
  msgs : List Msg

/-- `SessionManager.get_client` (auth.py:123-146): raise `LoginRequired`
when `is_authenticated()` is false; otherwise load the session, construct
a client and run the `get_timeline_feed()` liveness check; a
`LoginRequired` from that check is reported as session expiry and
re-raised; no login is ever attempted. -/
def get_client (fileExists : Bool) (probe : Except RemoteErr Unit)
    (timeline : Except RemoteErr Unit) : GetClientOut :=
  if is_authenticated fileExists probe = false then
    ⟨.error .notAuthenticated, 0, []⟩
  else
    match timeline with
    | .ok _ => ⟨.ok (), 0, []⟩
    | .error .loginRequired =>
      ⟨.error .sessionExpired, 0, [.err "Session expired. Please login again."]⟩
    | .error e => ⟨.error (.raised e), 0, []⟩

/-- The remote environment of one `SessionManager.login` invocation:
`loginResult k` is the outcome of the k-th `client.login(username,
password)` call (on success it yields the session payload that
`dump_settings` would then write), and `fault` is the filesystem behavior
seen by `_save_session`. -/
structure LoginEnv where
  loginResult : Nat → Except RemoteErr Payload
  fault : Option FsFault

/-- Result of `SessionManager.login`: the outcome (classified errors are
re-raised after their message), the filesystem afterwards, the filesystem
operations performed, the settings held by the client at each
`client.login` call, and the messages printed. -/
structure LoginOut where
  outcome : Except RemoteErr Unit
  fs : FsState
  fsOps : List FsOp
  loginCalls : List (Option Payload)
  msgs : List Msg

/-- The error classification of auth.py:82-93: `BadPassword`,
`TwoFactorRequired` and `ChallengeRequired` each get a specific message,
anything else a generic one; all are re-raised. -/
def classifyMsg : RemoteErr → Msg
  | .badPassword => .err "Invalid password. Please check your credentials."
  | .twoFactorRequired =>
    .err "Two-factor authentication is required. Please disable 2FA or use app-specific password."
  | .challengeRequired =>
    .err "Instagram requires additional verification. Please verify your account through the app first."
  | _ => .err "Login failed"

/-- The fresh-credential path of `SessionManager.login` (auth.py:71-93).
It runs on the SAME `client` object created at the top of `login` —
`settings` is whatever that client currently holds (the stale loaded
session when the reuse attempt failed, `none` when there was no session
file).  On success the session is persisted via `_save_session`. -/
def freshLogin (fs : FsState) (env : LoginEnv) (k : Nat)
    (settings : Option Payload) (calls : List (Option Payload))
    (msgs : List Msg) : LoginOut :=
  match env.loginResult k with
  | .ok p =>
    match save_session fs env.fault p with
    | ⟨fs2, ops, saveMsgs, _⟩ =>
      ⟨.ok (), fs2, ops, calls ++ [settings],
        msgs ++ [.info "Logging in to Instagram..."] ++ saveMsgs ++
          [.success "Successfully logged in"]⟩
  | .error e =>
    ⟨.error e, fs, [], calls ++ [settings],
      msgs ++ [.info "Logging in to Instagram...", classifyMsg e]⟩

/-- `SessionManager.login` (auth.py:43-93): one `client = Client()` is
created; if the session file exists, its settings are loaded into that
client and `client.login` is attempted (reuse path, no save on success);
on any failure the SAME client — still holding the loaded settings —
falls through to the fresh-credential path.  The session file is never
deleted; only the fresh path's `_save_session` overwrites it. -/
def login (fs : FsState) (env : LoginEnv) : LoginOut :=
  match fs.file with
  | some (stale, _m) =>
    match env.loginResult 0 with
    | .ok _p =>
      ⟨.ok (), fs, [], [some stale],
        [.info "Found existing session, attempting to reuse...",
         .success "Logged in using existing session"]⟩
    | .error _e =>
      freshLogin fs env 1 (some stale) [some stale]
        [.info "Found existing session, attempting to reuse...",
         .info "Existing session invalid, creating new one..."]
  | none => freshLogin fs env 0 none [] []

/-! ### C5: save-failure propagation -/

def c5fs : FsState := ⟨none, false⟩

/-- C5 counterexample: a disk-full failure while writing the session file
is reported via `error_message` but `_save_session` swallows the exception
— nothing propagates to the caller, contradicting the claim that the
failure propagates out of `save`. -/
theorem save_swallows_error_cex :
    (save_session c5fs (some .writeFail) "sess").propagated = none ∧
    Msg.err ("Failed to save session: " ++ faultStr .writeFail) ∈
      (save_session c5fs (some .writeFail) "sess").msgs := by
  exact ⟨rfl, by simp [save_session, c5fs]⟩

/-- C5 amended: on any filesystem failure during save the error is
reported to the user via an error message and then swallowed —
`_save_session` returns normally with no escaping exception — and the
write is never retried (at most one write is attempted). -/
theorem save_failure_reported_swallowed (fs : FsState) (p : Payload)
    (f : FsFault) :
    (save_session fs (some f) p).propagated = none ∧
    Msg.err ("Failed to save session: " ++ faultStr f) ∈
      (save_session fs (some f) p).msgs ∧
    ((save_session fs (some f) p).ops.countP
      (fun o => o = FsOp.write p)) ≤ 1 := by
  cases f <;> simp [save_session, List.countP_cons]

/-! ### C8: save/load round trip and permissions -/

/-- C8: for every filesystem state and payload, a (fault-free) save
followed by a load yields the payload back; after the save the session
file has mode `0o600` and the parent directory exists. -/
theorem save_load_roundtrip (fs : FsState) (p : Payload) :
    load_session (save_session fs none p).fs = some p ∧
    (save_session fs none p).fs.file = some (p, 0o600) ∧
    (save_session fs none p).fs.dirExists = true :=
  ⟨rfl, rfl, rfl⟩

/-! ### C6: `get_client` failure classification -/

/-- C6: `get_client` fails with the not-authenticated `LoginRequired`
whenever `is_authenticated()` is false; otherwise it runs the
timeline-feed liveness check, and an auth-expired (`LoginRequired`)
failure of that check yields the session-expired failure — a failure mode
distinct from `notAuthenticated` — without ever calling login; a passing
check yields the client. -/
theorem get_client_classifies (fe : Bool) (probe tl : Except RemoteErr Unit) :
    (is_authenticated fe probe = false →
      get_client fe probe tl = ⟨.error .notAuthenticated, 0, []⟩) ∧
    (is_authenticated fe probe = true → tl = .error .loginRequired →
      get_client fe probe tl =
        ⟨.error .sessionExpired, 0,
          [.err "Session expired. Please login again."]⟩) ∧
    (AuthFail.sessionExpired ≠ AuthFail.notAuthenticated) ∧
    (is_authenticated fe probe = true → tl = .ok () →
      get_client fe probe tl = ⟨.ok (), 0, []⟩) := by
  refine ⟨?_, ?_, by decide, ?_⟩
  · intro h
    simp [get_client, h]
  · intro h h2
    simp [get_client, h, h2]
  · intro h h2
    simp [get_client, h, h2]

/-- Witness for C6 at concrete states: no valid session, and a valid
session whose liveness check reports expiry. -/
theorem get_client_classifies_witness :
    get_client false (.ok ()) (.ok ()) = ⟨.error .notAuthenticated, 0, []⟩ ∧
    get_client true (.ok ()) (.error .loginRequired) =
      ⟨.error .sessionExpired, 0,
        [.err "Session expired. Please login again."]⟩ ∧
    get_client true (.ok ()) (.ok ()) = ⟨.ok (), 0, []⟩ :=
  ⟨(get_client_classifies false (.ok ()) (.ok ())).1 rfl,
   (get_client_classifies true (.ok ()) (.error .loginRequired)).2.1 rfl rfl,
   (get_client_classifies true (.ok ()) (.ok ())).2.2.2 rfl rfl⟩

/-! ### C7 and C10: the `login` fallback chain -/

def c7fs : FsState := ⟨some ("STALE", 0o600), true⟩

def c7env : LoginEnv :=
  ⟨fun k => if k = 0 then .error (.other "session rejected") else .ok "FRESH",
   none⟩

/-- C7 counterexample: with an existing session file the remote rejects
and valid fresh credentials, the fallback login succeeds and overwrites
the file — but it is performed on the SAME client object still holding
the stale loaded settings (`some "STALE"`), not on a new client (whose
settings would be `none`). -/
theorem login_fallback_same_client_cex :
    (login c7fs c7env).outcome = .ok () ∧
    (login c7fs c7env).fs.file = some ("FRESH", 0o600) ∧
    (login c7fs c7env).loginCalls = [some "STALE", some "STALE"] ∧
    (some "STALE" : Option Payload) ≠ none := by
  exact ⟨rfl, rfl, rfl, by simp⟩

/-- C7 amended: for every `login` call with an existing session file the
remote rejects and fresh credentials that succeed, the fallback path
succeeds — the fresh credential login running on the same client object,
which still holds the loaded stale settings, not on a new client — the
session file afterwards holds the new session from the fresh login, and
the stored file is never deleted (no unlink; only the fresh-path save
overwrites it). -/
theorem login_fallback_overwrites (fs : FsState) (stale : Payload) (m : Nat)
    (env : LoginEnv) (e : RemoteErr) (p : Payload)
    (hf : fs.file = some (stale, m)) (h0 : env.loginResult 0 = .error e)
    (h1 : env.loginResult 1 = .ok p) (hok : env.fault = none) :
    (login fs env).outcome = .ok () ∧
    (login fs env).fs.file = some (p, 0o600) ∧
    FsOp.unlink ∉ (login fs env).fsOps ∧
    (login fs env).loginCalls = [some stale, some stale] := by
  simp [login, freshLogin, hf, h0, h1, hok, save_session]

/-- Witness for C7's amended theorem at the concrete environment. -/
theorem login_fallback_overwrites_witness :
    (login c7fs c7env).outcome = .ok () ∧
    (login c7fs c7env).fs.file = some ("FRESH", 0o600) ∧
    FsOp.unlink ∉ (login c7fs c7env).fsOps ∧
    (login c7fs c7env).loginCalls = [some "STALE", some "STALE"] :=
  login_fallback_overwrites c7fs "STALE" 0o600 c7env (.other "session rejected")
    "FRESH" rfl rfl rfl rfl

def c10env : LoginEnv := ⟨fun _ => .ok "REFRESHED", none⟩

/-- C10: when `login` succeeds via the stored-session reuse path, the
session file is left untouched — no filesystem operation is performed, so
`_save_session` runs only on the fresh-login path and any session state
refreshed in memory is not persisted. -/
theorem login_reuse_no_save (fs : FsState) (stale : Payload) (m : Nat)
    (env : LoginEnv) (p : Payload)
    (hf : fs.file = some (stale, m)) (h0 : env.loginResult 0 = .ok p) :
    (login fs env).outcome = .ok () ∧
    (login fs env).fs = fs ∧
    (login fs env).fsOps = [] := by
  simp [login, hf, h0]

/-- Witness for C10 at a concrete reuse-success environment. -/
theorem login_reuse_no_save_witness :
    (login c7fs c10env).outcome = .ok () ∧
    (login c7fs c10env).fs = c7fs ∧
    (login c7fs c10env).fsOps = [] :=
  login_reuse_no_save c7fs "STALE" 0o600 c10env "REFRESHED" rfl rfl

/-! ### C9: `post_photo` validation and return value -/

def c9up7 : Remote (Option Nat) := fun _ => .ok (some 7)

def c9up42 : Remote (Option Nat) := fun _ => .ok (some 42)

/-- C9 counterexample: on success `post_photo` returns the boolean `True`,
not a media identifier — two uploads producing the distinct media ids 7
and 42 return identical values, so the return value carries no media
identifier (the id appears only inside the printed success message). -/
theorem post_photo_returns_bool_cex :
    (post_photo true ".jpg" "" c9up7).outcome = .ok true ∧
    (post_photo true ".jpg" "" c9up42).outcome = .ok true ∧
    (post_photo true ".jpg" "" c9up7).outcome =
      (post_photo true ".jpg" "" c9up42).outcome ∧
    (7 : Nat) ≠ 42 := by
  exact ⟨rfl, rfl, rfl, by decide⟩

theorem upperJpg_allowed : strLower ".JPG" ∈ allowedPhotoSuffixes := by decide

/-- C9 amended: `post_photo` validates the local file before any remote
call — a missing file or an extension not in {jpg, jpeg, png}
(case-insensitive, e.g. `.gif`) is reported as a local validation error
and returns `False` with the remote capability invoked zero times; on a
successful upload it returns `True`, reporting the media identifier in
the success message. -/
theorem post_photo_amended :
    (∀ (sfx cap : String) (up : Remote (Option Nat)),
      strLower sfx ∉ allowedPhotoSuffixes →
      (post_photo true sfx cap up).outcome = .ok false ∧
      (post_photo true sfx cap up).remoteAttempts = 0 ∧
      Msg.err "Photo must be JPG, JPEG, or PNG format" ∈
        (post_photo true sfx cap up).msgs) ∧
    (∀ (sfx cap : String) (up : Remote (Option Nat)),
      (post_photo false sfx cap up).outcome = .ok false ∧
      (post_photo false sfx cap up).remoteAttempts = 0) ∧
    (∀ (cap : String) (up : Remote (Option Nat)) (pk : Nat),
      up 0 = .ok (some pk) →
      (post_photo true ".JPG" cap up).outcome = .ok true ∧
      Msg.success ("Photo posted successfully! Media ID: " ++ toString pk) ∈
        (post_photo true ".JPG" cap up).msgs) := by
  refine ⟨?_, ?_, ?_⟩
  · intro sfx cap up h
    simp [post_photo, h]
  · intro sfx cap up
    simp [post_photo]
  · intro cap up pk h
    have r := retry_ok_first up (some pk) h
    simp [post_photo, r, upperJpg_allowed]

/-- Witness for C9's amended theorem: a `.gif` upload attempt and an
upper-case `.JPG` success. -/
theorem post_photo_amended_witness :
    ((post_photo true ".gif" "" c9up7).outcome = .ok false ∧
     (post_photo true ".gif" "" c9up7).remoteAttempts = 0 ∧
     Msg.err "Photo must be JPG, JPEG, or PNG format" ∈
       (post_photo true ".gif" "" c9up7).msgs) ∧
    ((post_photo true ".JPG" "" c9up7).outcome = .ok true ∧
     Msg.success ("Photo posted successfully! Media ID: " ++ toString 7) ∈
       (post_photo true ".JPG" "" c9up7).msgs) :=
  ⟨post_photo_amended.1 ".gif" "" c9up7 (by decide),
   post_photo_amended.2.2 "" c9up7 7 rfl⟩

end InstaCli
